import Mathlib

/-!
Verification development for the `ndax_trade` repository: a WebSocket client
for the NDAX exchange (`src/ndax_trader/__init__.py`, the validating variant,
and `src/ndax.py`, the non-validating near-duplicate).

The Python code is shallowly embedded: JSON values are an inductive type,
`json.dumps` / `json.loads` are an executable serializer and (fueled) parser,
the client object is a record holding the `request_sequence_number` counter and
the frames written to the current and past sockets, and each method of
`NDAXClient` is a function from an environment (`os.environ`) and a client
state to `Except` (a raised Python exception, or the updated state).
-/

/-- JSON values, as produced by Python's `json` module on the payloads this
client exchanges.  Numbers are modelled as integers: the client only ever
builds integer literals (`0`, `1`, `2`) itself and passes caller-supplied
values through unchanged. -/
inductive Json where
  | null
  | bool (b : Bool)
  | num (n : Int)
  | str (s : String)
  | arr (xs : List Json)
  | obj (fields : List (String × Json))

/-- Escapes of a single character inside a JSON string literal, as
`json.dumps` emits them for the inputs exercised here. -/
def escapeChar (c : Char) : String :=
  if c = '"' then "\\\""
  else if c = '\\' then "\\\\"
  else if c = '\n' then "\\n"
  else if c = '\t' then "\\t"
  else if c = '\r' then "\\r"
  else String.singleton c

def escapeString (s : String) : String :=
  String.join (s.data.map escapeChar)

mutual

/-- Python `json.dumps` with its default separators: items joined by a comma
and a space, keys and values joined by a colon and a space. -/
def dumps : Json → String
  | Json.null => "null"
  | Json.bool true => "true"
  | Json.bool false => "false"
  | Json.num n => toString n
  | Json.str s => "\"" ++ escapeString s ++ "\""
  | Json.arr xs => "[" ++ dumpsItems xs ++ "]"
  | Json.obj fields => "\x7b" ++ dumpsFields fields ++ "\x7d"

def dumpsItems : List Json → String
  | [] => ""
  | [x] => dumps x
  | x :: y :: rest => dumps x ++ ", " ++ dumpsItems (y :: rest)

def dumpsFields : List (String × Json) → String
  | [] => ""
  | [(k, v)] => "\"" ++ escapeString k ++ "\": " ++ dumps v
  | (k, v) :: f :: rest =>
    "\"" ++ escapeString k ++ "\": " ++ dumps v ++ ", " ++ dumpsFields (f :: rest)

end

/-- Whitespace skipping of the JSON grammar. -/
def skipWs : List Char → List Char
  | [] => []
  | c :: cs => if c = ' ' ∨ c = '\n' ∨ c = '\t' ∨ c = '\r' then skipWs cs else c :: cs

/-- Body of a JSON string literal (the opening quote already consumed),
accumulating decoded characters until the closing quote. -/
def parseStringBody (acc : List Char) : List Char → Option (String × List Char)
  | [] => none
  | '"' :: rest => some (String.mk acc.reverse, rest)
  | '\\' :: e :: rest =>
    if e = '"' then parseStringBody ('"' :: acc) rest
    else if e = '\\' then parseStringBody ('\\' :: acc) rest
    else if e = '/' then parseStringBody ('/' :: acc) rest
    else if e = 'n' then parseStringBody ('\n' :: acc) rest
    else if e = 't' then parseStringBody ('\t' :: acc) rest
    else if e = 'r' then parseStringBody ('\r' :: acc) rest
    else none
  | c :: rest => parseStringBody (c :: acc) rest

/-- Run of decimal digits, with its value; fails when no digit is present. -/
def parseDigits (acc : Nat) (seen : Bool) : List Char → Option (Nat × List Char)
  | [] => if seen then some (acc, []) else none
  | c :: cs =>
    if c.isDigit then parseDigits (acc * 10 + (c.toNat - 48)) true cs
    else if seen then some (acc, c :: cs) else none

mutual

/-- One JSON value, fueled; the fuel only bounds recursion depth and is chosen
large enough for every input in this development. -/
def parseVal : Nat → List Char → Option (Json × List Char)
  | 0, _ => none
  | fuel + 1, input =>
    match skipWs input with
    | [] => none
    | '"' :: rest =>
      match parseStringBody [] rest with
      | some (s, r) => some (Json.str s, r)
      | none => none
    | '-' :: rest =>
      match parseDigits 0 false rest with
      | some (n, r) => some (Json.num (-(n : Int)), r)
      | none => none
    | '[' :: rest =>
      match skipWs rest with
      | ']' :: r => some (Json.arr [], r)
      | other =>
        match parseVal.items fuel other with
        | some (xs, r) => some (Json.arr xs, r)
        | none => none
    | '\x7b' :: rest =>
      match skipWs rest with
      | '\x7d' :: r => some (Json.obj [], r)
      | other =>
        match parseVal.fields fuel other with
        | some (fs, r) => some (Json.obj fs, r)
        | none => none
    | 't' :: 'r' :: 'u' :: 'e' :: rest => some (Json.bool true, rest)
    | 'f' :: 'a' :: 'l' :: 's' :: 'e' :: rest => some (Json.bool false, rest)
    | 'n' :: 'u' :: 'l' :: 'l' :: rest => some (Json.null, rest)
    | c :: rest =>
      if c.isDigit then
        match parseDigits 0 false (c :: rest) with
        | some (n, r) => some (Json.num (n : Int), r)
        | none => none
      else none

/-- Comma-separated array items up to the closing bracket. -/
def parseVal.items : Nat → List Char → Option (List Json × List Char)
  | 0, _ => none
  | fuel + 1, input =>
    match parseVal fuel input with
    | none => none
    | some (x, rest) =>
      match skipWs rest with
      | ',' :: r =>
        match parseVal.items fuel r with
        | some (xs, r2) => some (x :: xs, r2)
        | none => none
      | ']' :: r => some ([x], r)
      | _ => none

/-- Comma-separated object members up to the closing brace. -/
def parseVal.fields : Nat → List Char → Option (List (String × Json) × List Char)
  | 0, _ => none
  | fuel + 1, input =>
    match skipWs input with
    | '"' :: rest =>
      match parseStringBody [] rest with
      | none => none
      | some (k, r1) =>
        match skipWs r1 with
        | ':' :: r2 =>
          match parseVal fuel r2 with
          | none => none
          | some (v, r3) =>
            match skipWs r3 with
            | ',' :: r4 =>
              match parseVal.fields fuel r4 with
              | some (fs, r5) => some ((k, v) :: fs, r5)
              | none => none
            | '\x7d' :: r4 => some ([(k, v)], r4)
            | _ => none
        | _ => none
    | _ => none

end

/-- Python exceptions this client can raise. -/
inductive PyErr where
  | jsonDecodeError
  | valueError
  | typeError
  | attributeError
  | connectionClosed
deriving DecidableEq, Repr

/-- Python `json.loads` on a string: parse one value, demand that nothing but
whitespace follows, raise `json.JSONDecodeError` otherwise. -/
def loads (s : String) : Except PyErr Json :=
  match parseVal (16 * (s.length + 1)) s.data with
  | some (j, rest) => if skipWs rest = [] then Except.ok j else Except.error PyErr.jsonDecodeError
  | none => Except.error PyErr.jsonDecodeError

/-- Lookup in a parsed JSON object; on duplicate keys the last occurrence
wins, as when Python builds a `dict` from parsed members. -/
def jLookup (fields : List (String × Json)) (k : String) : Option Json :=
  match fields with
  | [] => none
  | (k', v) :: rest =>
    match jLookup rest k with
    | some w => some w
    | none => if k' = k then some v else none

/-- Python `response.get(key)`: `None` when the key is missing, and an
`AttributeError` when the receiver is not a dict. -/
def dictGet (j : Json) (k : String) : Except PyErr Json :=
  match j with
  | Json.obj fields => Except.ok ((jLookup fields k).getD Json.null)
  | _ => Except.error PyErr.attributeError

/-- Python `response.get(key, default)`. -/
def dictGetD (j : Json) (k : String) (d : Json) : Except PyErr Json :=
  match j with
  | Json.obj fields => Except.ok ((jLookup fields k).getD d)
  | _ => Except.error PyErr.attributeError

/-- Python truthiness of a JSON-shaped value (`bool(x)`). -/
def pyTruthy : Json → Bool
  | Json.null => false
  | Json.bool b => b
  | Json.num n => n != 0
  | Json.str s => s != ""
  | Json.arr xs => !xs.isEmpty
  | Json.obj fields => !fields.isEmpty

/-- Python truthiness of an `os.environ.get` result (`None` or a string). -/
def pyTruthyOptStr : Option String → Bool
  | none => false
  | some s => s != ""

/-- Value of a run of decimal digits; `none` when empty or not all digits. -/
def decDigits (cs : List Char) : Option Nat :=
  match cs with
  | [] => none
  | _ =>
    if cs.all Char.isDigit then
      some (cs.foldl (fun a c => a * 10 + (c.toNat - 48)) 0)
    else none

/-- Surrounding whitespace of a character list, stripped. -/
def stripWs (cs : List Char) : List Char :=
  ((skipWs cs).reverse |> skipWs).reverse

/-- Python `int(s)` on a string: surrounding whitespace stripped, an optional
sign, then decimal digits; raises `ValueError` otherwise. -/
def pyIntOfStr (s : String) : Option Int :=
  match stripWs s.data with
  | '-' :: rest => (decDigits rest).map (fun n => -(n : Int))
  | '+' :: rest => (decDigits rest).map (fun n => (n : Int))
  | cs => (decDigits cs).map (fun n => (n : Int))

/-- Python `int(os.environ.get(KEY))`: `int(None)` raises `TypeError`, a
non-numeric string raises `ValueError`. -/
def pyIntOfEnv : Option String → Except PyErr Int
  | none => Except.error PyErr.typeError
  | some s =>
    match pyIntOfStr s with
    | some n => Except.ok n
    | none => Except.error PyErr.valueError

def isOkE {α : Type} : Except PyErr α → Bool
  | Except.ok _ => true
  | Except.error _ => false

/-- `NDAXClient.on_message`: parses the outer envelope with `json.loads`,
reads `response.get("n")` and `json.loads(response.get("o", "{}"))`, and
returns the pair the handler prints.  Any raised exception is the `error`
case. -/
def on_message (message : String) : Except PyErr (Json × Json) :=
  match loads message with
  | Except.error e => Except.error e
  | Except.ok response =>
    match dictGet response "n" with
    | Except.error e => Except.error e
    | Except.ok method_name =>
      match dictGetD response "o" (Json.str "\x7b\x7d") with
      | Except.error e => Except.error e
      | Except.ok oVal =>
        match oVal with
        | Json.str s =>
          match loads s with
          | Except.error e => Except.error e
          | Except.ok payload => Except.ok (method_name, payload)
        | _ => Except.error PyErr.typeError

/-- One frame as `_send_request` builds it: `m` the request type code, `i`
the sequence number, `n` the method name, and `o` the payload already
serialized to a JSON string. -/
structure Frame where
  m : Int
  i : Nat
  n : String
  o : String
deriving DecidableEq, Repr

def mkFrame (seq : Nat) (method_name : String) (payload : Json) : Frame :=
  { m := 0, i := seq, n := method_name, o := dumps payload }

/-- The pure core of `NDAXClient._send_request`: from the current value of
`self.request_sequence_number`, the frame written to the socket and the
counter value stored afterwards (`+= 2`). -/
def send_request (seq : Nat) (method_name : String) (payload : Json) : Frame × Nat :=
  (mkFrame seq method_name payload, seq + 2)

/-- The envelope dict `_send_request` passes to `json.dumps`. -/
def frameJson (f : Frame) : Json :=
  Json.obj [("m", Json.num f.m), ("i", Json.num (f.i : Int)),
            ("n", Json.str f.n), ("o", Json.str f.o)]

/-- The bytes `self.ws.send(json.dumps(frame))` puts on the wire. -/
def wireOf (f : Frame) : String := dumps (frameJson f)

/-- Modelled from the spec: the request type code of the wire envelope is 0. -/
def requestTypeCode : Int := 0

/-- Modelled from the spec: `Encode(methodName, bodyObject, sequenceId)`
"serializes body to a JSON string, wraps in the envelope
`(m: requestTypeCode, i: sequenceId, n: methodName, o: serializedBody)`". -/
def encodeSpec (methodName : String) (bodyObject : Json) (sequenceId : Nat) : String :=
  dumps (Json.obj [("m", Json.num requestTypeCode), ("i", Json.num (sequenceId : Int)),
                   ("n", Json.str methodName), ("o", Json.str (dumps bodyObject))])

/-- A sequence of successful `_send_request` invocations from a given counter
value: the frames sent, in order, and the final counter. -/
def runSends (seq : Nat) : List (String × Json) → Nat × List Frame
  | [] => (seq, [])
  | (n, p) :: rest =>
    let fp := send_request seq n p
    let r := runSends fp.2 rest
    (r.1, fp.1 :: r.2)

/-- One WebSocket connection: whether `on_open` has fired, and the frames
successfully written to it, in order. -/
structure Conn where
  opened : Bool
  frames : List Frame
deriving DecidableEq, Repr

/-- The `NDAXClient` object: `request_sequence_number`, the current socket
`self.ws`, and (for stating per-connection properties) the frames of the
sockets already replaced by `connect()`. -/
structure Client where
  seq : Nat
  conn : Conn
  past : List (List Frame)
deriving DecidableEq, Repr

/-- `NDAXClient.__init__`: the counter starts at 2 and `connect()` installs a
fresh, not-yet-opened socket. -/
def initClient : Client :=
  { seq := 2, conn := { opened := false, frames := [] }, past := [] }

/-- Effect of a successful `_send_request` on the client: the frame carrying
the current counter value is appended to the socket's output and the counter
moves up by 2. -/
def pushFrame (c : Client) (method_name : String) (payload : Json) : Client :=
  let fp := send_request c.seq method_name payload
  { c with conn := { c.conn with frames := c.conn.frames ++ [fp.1] }, seq := fp.2 }

/-- `NDAXClient._send_request` on the client object: `self.ws.send` raises on
a socket that is not open (and the counter is then left untouched, the
increment comes after the send); otherwise the frame goes out and the counter
is bumped. -/
def sendOnClient (c : Client) (method_name : String) (payload : Json) : Except PyErr Client :=
  if c.conn.opened then Except.ok (pushFrame c method_name payload)
  else Except.error PyErr.connectionClosed

/-- `os.environ`. -/
def Env : Type := String → Option String

/-- The payload `NDAXClient.authenticate` builds (after its check both
variables are present and non-empty, so the defaults are never visible). -/
def authPayload (env : Env) : Json :=
  Json.obj [("UserName", Json.str ((env "USERNAME").getD "")),
            ("Password", Json.str ((env "PASSWORD").getD ""))]

/-- `NDAXClient.authenticate` (validating variant): raises `ValueError` when
`USERNAME` or `PASSWORD` is unset or empty, otherwise sends
`authenticateuser`. -/
def authenticate (env : Env) (c : Client) : Except PyErr Client :=
  if !pyTruthyOptStr (env "USERNAME") || !pyTruthyOptStr (env "PASSWORD") then
    Except.error PyErr.valueError
  else sendOnClient c "authenticateuser" (authPayload env)

/-- `NDAXClient.authenticate_2fa` (validating variant); `totp_now` abstracts
`pyotp.TOTP(secret_key).now()`, a time-based code the embedding leaves
opaque as a function of the secret. -/
def authenticate_2fa (totp_now : String → String) (env : Env) (c : Client) : Except PyErr Client :=
  if !pyTruthyOptStr (env "2FA_SECRET_KEY") then Except.error PyErr.valueError
  else
    sendOnClient c "Authenticate2FA"
      (Json.obj [("Code", Json.str (totp_now (((env "2FA_SECRET_KEY")).getD "")))])

/-- `NDAXClient.get_account_positions` (validating variant): checks the
variable for truthiness first, then evaluates `int(account_id)` (which can
still raise on a non-numeric value), then sends. -/
def get_account_positions (env : Env) (c : Client) : Except PyErr Client :=
  if !pyTruthyOptStr (env "ACCOUNT_ID") then Except.error PyErr.valueError
  else
    match pyIntOfEnv (env "ACCOUNT_ID") with
    | Except.error e => Except.error e
    | Except.ok aid =>
      sendOnClient c "GetAccountPositions"
        (Json.obj [("AccountId", Json.num aid), ("OMSId", Json.num 1)])

/-- The payload of `NDAXClient.subscribe_level1`, with its Python default
arguments `instrument_id=None`, `symbol=None`. -/
def sub1Payload (instrument_id symbol : Option Json) : Json :=
  Json.obj [("OMSId", Json.num 1),
            ("InstrumentId", instrument_id.getD (Json.num 0)),
            ("Symbol", symbol.getD (Json.str ""))]

/-- `NDAXClient.subscribe_level1`: builds the payload and sends, with no
bookkeeping of existing subscriptions. -/
def subscribe_level1 (c : Client) (instrument_id symbol : Option Json) : Except PyErr Client :=
  sendOnClient c "SubscribeLevel1" (sub1Payload instrument_id symbol)

/-- `NDAXClient.getproducts`. -/
def getproducts (c : Client) : Except PyErr Client :=
  sendOnClient c "GetProducts" (Json.obj [("OMSId", Json.num 1)])

/-- `NDAXClient.logout`. -/
def logout (c : Client) : Except PyErr Client :=
  sendOnClient c "LogOut" (Json.obj [])

/-- `payload["AccountId"]` on the dict payloads below. -/
def payloadItem (payload : Json) (k : String) : Json :=
  match payload with
  | Json.obj fields => (jLookup fields k).getD Json.null
  | _ => Json.null

/-- The payload dict of the account-id-requiring query methods. -/
def accountPayload (aid : Int) : Json :=
  Json.obj [("OMSId", Json.num 1), ("AccountId", Json.num aid)]

/-- The payload dict of `NDAXClient.cancelorder`. -/
def cancelPayload (aid : Int) (order_id : Json) : Json :=
  Json.obj [("OMSId", Json.num 1), ("AccountId", Json.num aid), ("OrderId", order_id)]

/-- `NDAXClient.getaccountinfo`: `int(os.environ.get("ACCOUNT_ID"))` is
evaluated while the payload dict is built, before the
`if not payload["AccountId"]` guard runs. -/
def getaccountinfo (env : Env) (c : Client) : Except PyErr Client :=
  match pyIntOfEnv (env "ACCOUNT_ID") with
  | Except.error e => Except.error e
  | Except.ok aid =>
    if !pyTruthy (payloadItem (accountPayload aid) "AccountId") then Except.error PyErr.valueError
    else sendOnClient c "GetAccountInfo" (accountPayload aid)

/-- `NDAXClient.getopentradereports`: same shape as `getaccountinfo`. -/
def getopentradereports (env : Env) (c : Client) : Except PyErr Client :=
  match pyIntOfEnv (env "ACCOUNT_ID") with
  | Except.error e => Except.error e
  | Except.ok aid =>
    if !pyTruthy (payloadItem (accountPayload aid) "AccountId") then Except.error PyErr.valueError
    else sendOnClient c "GetOpenTradeReports" (accountPayload aid)

/-- `NDAXClient.gettickerhistory`: same shape as `getaccountinfo`. -/
def gettickerhistory (env : Env) (c : Client) : Except PyErr Client :=
  match pyIntOfEnv (env "ACCOUNT_ID") with
  | Except.error e => Except.error e
  | Except.ok aid =>
    if !pyTruthy (payloadItem (accountPayload aid) "AccountId") then Except.error PyErr.valueError
    else sendOnClient c "GetTickerHistory" (accountPayload aid)

/-- `NDAXClient.cancellallorders`: same shape as `getaccountinfo`. -/
def cancellallorders (env : Env) (c : Client) : Except PyErr Client :=
  match pyIntOfEnv (env "ACCOUNT_ID") with
  | Except.error e => Except.error e
  | Except.ok aid =>
    if !pyTruthy (payloadItem (accountPayload aid) "AccountId") then Except.error PyErr.valueError
    else sendOnClient c "CancelAllOrders" (accountPayload aid)

/-- `NDAXClient.cancelorder`. -/
def cancelorder (env : Env) (c : Client) (order_id : Json) : Except PyErr Client :=
  match pyIntOfEnv (env "ACCOUNT_ID") with
  | Except.error e => Except.error e
  | Except.ok aid =>
    if !pyTruthy (payloadItem (cancelPayload aid order_id) "AccountId") then
      Except.error PyErr.valueError
    else sendOnClient c "CancelOrder" (cancelPayload aid order_id)

/-- `NDAXClient.getopenorders`: same shape as `getaccountinfo`. -/
def getopenorders (env : Env) (c : Client) : Except PyErr Client :=
  match pyIntOfEnv (env "ACCOUNT_ID") with
  | Except.error e => Except.error e
  | Except.ok aid =>
    if !pyTruthy (payloadItem (accountPayload aid) "AccountId") then Except.error PyErr.valueError
    else sendOnClient c "GetOpenOrders" (accountPayload aid)

/-- `NDAXClient.subscribeaccountevents`: same shape as `getaccountinfo`. -/
def subscribeaccountevents (env : Env) (c : Client) : Except PyErr Client :=
  match pyIntOfEnv (env "ACCOUNT_ID") with
  | Except.error e => Except.error e
  | Except.ok aid =>
    if !pyTruthy (payloadItem (accountPayload aid) "AccountId") then Except.error PyErr.valueError
    else sendOnClient c "SubscribeAccountEvents" (accountPayload aid)

/-- The member list of the `NDAXClient.sendorder` payload dict, in source
order; `LimitPrice` is `price if price is not None else 0`. -/
def sendorderFields (aid : Int) (instrument_id side order_type quantity timeinforce : Json)
    (usedisplayquantity : Bool) (price : Option Json) : List (String × Json) :=
  [("OMSId", Json.num 1),
   ("AccountId", Json.num aid),
   ("InstrumentId", instrument_id),
   ("TimeInForce", timeinforce),
   ("Side", side),
   ("OrderType", order_type),
   ("UseDisplayQuantity", Json.bool usedisplayquantity),
   ("Quantity", quantity),
   ("LimitPrice", price.getD (Json.num 0))]

def sendorderPayload (aid : Int) (instrument_id side order_type quantity timeinforce : Json)
    (usedisplayquantity : Bool) (price : Option Json) : Json :=
  Json.obj (sendorderFields aid instrument_id side order_type quantity timeinforce
    usedisplayquantity price)

/-- `NDAXClient.sendorder`. -/
def sendorder (env : Env) (c : Client)
    (instrument_id side order_type quantity timeinforce : Json)
    (usedisplayquantity : Bool) (price : Option Json) : Except PyErr Client :=
  match pyIntOfEnv (env "ACCOUNT_ID") with
  | Except.error e => Except.error e
  | Except.ok aid =>
    if !pyTruthy (payloadItem (sendorderPayload aid instrument_id side order_type quantity
        timeinforce usedisplayquantity price) "AccountId") then
      Except.error PyErr.valueError
    else
      sendOnClient c "SendOrder" (sendorderPayload aid instrument_id side order_type quantity
        timeinforce usedisplayquantity price)

/-- Events the websocket-client loop and callers deliver to one client
instance, processed sequentially: the `on_open` callback, the `on_close`
callback (whose handler reconnects), and invocations of the request
methods. -/
inductive Event where
  | connOpen
  | connClose
  | callAuthenticate2fa
  | callGetAccountPositions
  | callSubscribeLevel1 (instrument_id symbol : Option Json)
  | callGetProducts
  | callLogout
  | callGetAccountInfo
  | callSendOrder (instrument_id side order_type quantity timeinforce : Json)
      (usedisplayquantity : Bool) (price : Option Json)

/-- A raised exception propagates to the caller and leaves the client object
as it was. -/
def orKeep (c : Client) : Except PyErr Client → Client
  | Except.ok c' => c'
  | Except.error _ => c

/-- The socket transitioning to open (before the `on_open` body runs). -/
def setOpened (c : Client) : Client :=
  { c with conn := { c.conn with opened := true } }

/-- One event against the client.  `on_open` marks the socket open and runs
`self.authenticate()`; `on_close` runs `self.connect()`, which replaces
`self.ws` with a fresh unopened socket and touches nothing else — in
particular not `request_sequence_number`. -/
def step (env : Env) (totp_now : String → String) (c : Client) : Event → Client
  | Event.connOpen => orKeep (setOpened c) (authenticate env (setOpened c))
  | Event.connClose =>
    { c with conn := { opened := false, frames := [] }, past := c.past ++ [c.conn.frames] }
  | Event.callAuthenticate2fa => orKeep c (authenticate_2fa totp_now env c)
  | Event.callGetAccountPositions => orKeep c (get_account_positions env c)
  | Event.callSubscribeLevel1 iid sym => orKeep c (subscribe_level1 c iid sym)
  | Event.callGetProducts => orKeep c (getproducts c)
  | Event.callLogout => orKeep c (logout c)
  | Event.callGetAccountInfo => orKeep c (getaccountinfo env c)
  | Event.callSendOrder iid side otype qty tif udq price =>
    orKeep c (sendorder env c iid side otype qty tif udq price)

/-- A whole event trace against the client. -/
def run (env : Env) (totp_now : String → String) (c : Client) : List Event → Client
  | [] => c
  | e :: es => run env totp_now (step env totp_now c e) es

/-- Traces the websocket library can actually deliver: `on_open` fires only
on a socket that is not already open.  The flag argument mirrors the socket
state along the trace. -/
def wfEvents : Bool → List Event → Bool
  | _, [] => true
  | opened, Event.connOpen :: es => !opened && wfEvents true es
  | _, Event.connClose :: es => wfEvents false es
  | opened, _ :: es => wfEvents opened es

/-- The per-connection frame lists of a client: every replaced socket's, then
the current socket's. -/
def connLists (c : Client) : List (List Frame) := c.past ++ [c.conn.frames]

/-- Every frame the instance ever sent, in chronological order. -/
def allFrames (c : Client) : List Frame := (connLists c).flatten

/-- `USERNAME` and `PASSWORD` are both set and non-empty. -/
def goodCreds (env : Env) : Prop :=
  pyTruthyOptStr (env "USERNAME") = true ∧ pyTruthyOptStr (env "PASSWORD") = true

/-- The method name a call event sends with, if it is a call event. -/
def callName : Event → Option String
  | Event.connOpen => none
  | Event.connClose => none
  | Event.callAuthenticate2fa => some "Authenticate2FA"
  | Event.callGetAccountPositions => some "GetAccountPositions"
  | Event.callSubscribeLevel1 _ _ => some "SubscribeLevel1"
  | Event.callGetProducts => some "GetProducts"
  | Event.callLogout => some "LogOut"
  | Event.callGetAccountInfo => some "GetAccountInfo"
  | Event.callSendOrder _ _ _ _ _ _ _ => some "SendOrder"

theorem pushFrame_frames (c : Client) (name : String) (p : Json) :
    (pushFrame c name p).conn.frames = c.conn.frames ++ [mkFrame c.seq name p] := rfl

theorem pushFrame_seq (c : Client) (name : String) (p : Json) :
    (pushFrame c name p).seq = c.seq + 2 := rfl

theorem pushFrame_opened (c : Client) (name : String) (p : Json) :
    (pushFrame c name p).conn.opened = c.conn.opened := rfl

theorem pushFrame_past (c : Client) (name : String) (p : Json) :
    (pushFrame c name p).past = c.past := rfl

theorem orKeep_send_or (c : Client) (name : String) (payload : Json)
    (hn : name ≠ "authenticateuser") :
    orKeep c (sendOnClient c name payload) = c ∨
      (c.conn.opened = true ∧ name ≠ "authenticateuser" ∧
        ∃ p, orKeep c (sendOnClient c name payload) = pushFrame c name p) := by
  cases h : c.conn.opened with
  | false => left; simp [sendOnClient, h, orKeep]
  | true => right; exact ⟨rfl, hn, payload, by simp [sendOnClient, h, orKeep]⟩

theorem authenticate_2fa_shape (totp_now : String → String) (env : Env) (c : Client) :
    authenticate_2fa totp_now env c = Except.error PyErr.valueError ∨
      authenticate_2fa totp_now env c = sendOnClient c "Authenticate2FA"
        (Json.obj [("Code", Json.str (totp_now ((env "2FA_SECRET_KEY").getD "")))]) := by
  unfold authenticate_2fa
  split
  · left; rfl
  · right; rfl

theorem get_account_positions_shape (env : Env) (c : Client) :
    (∃ e, get_account_positions env c = Except.error e) ∨
      ∃ aid, get_account_positions env c = sendOnClient c "GetAccountPositions"
        (Json.obj [("AccountId", Json.num aid), ("OMSId", Json.num 1)]) := by
  unfold get_account_positions
  split
  · left; exact ⟨_, rfl⟩
  · split
    · left; exact ⟨_, rfl⟩
    · right; exact ⟨_, rfl⟩

theorem getaccountinfo_shape (env : Env) (c : Client) :
    (∃ e, getaccountinfo env c = Except.error e) ∨
      ∃ aid, getaccountinfo env c = sendOnClient c "GetAccountInfo" (accountPayload aid) := by
  unfold getaccountinfo
  split
  · left; exact ⟨_, rfl⟩
  · split
    · left; exact ⟨_, rfl⟩
    · right; exact ⟨_, rfl⟩

theorem sendorder_shape (env : Env) (c : Client)
    (iid side otype qty tif : Json) (udq : Bool) (price : Option Json) :
    (∃ e, sendorder env c iid side otype qty tif udq price = Except.error e) ∨
      ∃ aid, sendorder env c iid side otype qty tif udq price
        = sendOnClient c "SendOrder" (sendorderPayload aid iid side otype qty tif udq price) := by
  unfold sendorder
  split
  · left; exact ⟨_, rfl⟩
  · split
    · left; exact ⟨_, rfl⟩
    · right; exact ⟨_, rfl⟩

theorem step_call_shape (env : Env) (totp_now : String → String) (c : Client)
    (e : Event) (name : String) (hname : callName e = some name) :
    step env totp_now c e = c ∨
      (c.conn.opened = true ∧ name ≠ "authenticateuser" ∧
        ∃ p, step env totp_now c e = pushFrame c name p) := by
  cases e with
  | connOpen => simp [callName] at hname
  | connClose => simp [callName] at hname
  | callAuthenticate2fa =>
    simp only [callName, Option.some.injEq] at hname
    subst hname
    have hs : step env totp_now c Event.callAuthenticate2fa
        = orKeep c (authenticate_2fa totp_now env c) := rfl
    rcases authenticate_2fa_shape totp_now env c with h | h
    · left; rw [hs, h]; rfl
    · rw [hs, h]
      exact orKeep_send_or c "Authenticate2FA" _ (by decide)
  | callGetAccountPositions =>
    simp only [callName, Option.some.injEq] at hname
    subst hname
    have hs : step env totp_now c Event.callGetAccountPositions
        = orKeep c (get_account_positions env c) := rfl
    rcases get_account_positions_shape env c with ⟨e, h⟩ | ⟨aid, h⟩
    · left; rw [hs, h]; rfl
    · rw [hs, h]
      exact orKeep_send_or c "GetAccountPositions" _ (by decide)
  | callSubscribeLevel1 iid sym =>
    simp only [callName, Option.some.injEq] at hname
    subst hname
    have hs : step env totp_now c (Event.callSubscribeLevel1 iid sym)
        = orKeep c (sendOnClient c "SubscribeLevel1" (sub1Payload iid sym)) := rfl
    rw [hs]
    exact orKeep_send_or c "SubscribeLevel1" _ (by decide)
  | callGetProducts =>
    simp only [callName, Option.some.injEq] at hname
    subst hname
    have hs : step env totp_now c Event.callGetProducts
        = orKeep c (sendOnClient c "GetProducts" (Json.obj [("OMSId", Json.num 1)])) := rfl
    rw [hs]
    exact orKeep_send_or c "GetProducts" _ (by decide)
  | callLogout =>
    simp only [callName, Option.some.injEq] at hname
    subst hname
    have hs : step env totp_now c Event.callLogout
        = orKeep c (sendOnClient c "LogOut" (Json.obj [])) := rfl
    rw [hs]
    exact orKeep_send_or c "LogOut" _ (by decide)
  | callGetAccountInfo =>
    simp only [callName, Option.some.injEq] at hname
    subst hname
    have hs : step env totp_now c Event.callGetAccountInfo
        = orKeep c (getaccountinfo env c) := rfl
    rcases getaccountinfo_shape env c with ⟨e, h⟩ | ⟨aid, h⟩
    · left; rw [hs, h]; rfl
    · rw [hs, h]
      exact orKeep_send_or c "GetAccountInfo" _ (by decide)
  | callSendOrder iid side otype qty tif udq price =>
    simp only [callName, Option.some.injEq] at hname
    subst hname
    have hs : step env totp_now c (Event.callSendOrder iid side otype qty tif udq price)
        = orKeep c (sendorder env c iid side otype qty tif udq price) := rfl
    rcases sendorder_shape env c iid side otype qty tif udq price with ⟨e, h⟩ | ⟨aid, h⟩
    · left; rw [hs, h]; rfl
    · rw [hs, h]
      exact orKeep_send_or c "SendOrder" _ (by decide)

theorem authenticate_shape (env : Env) (c : Client) :
    authenticate env c = Except.error PyErr.valueError ∨
      authenticate env c = sendOnClient c "authenticateuser" (authPayload env) := by
  unfold authenticate
  split
  · left; rfl
  · right; rfl

theorem step_connOpen_shape (env : Env) (totp_now : String → String) (c : Client) :
    step env totp_now c Event.connOpen = setOpened c ∨
      step env totp_now c Event.connOpen
        = pushFrame (setOpened c) "authenticateuser" (authPayload env) := by
  have hs : step env totp_now c Event.connOpen
      = orKeep (setOpened c) (authenticate env (setOpened c)) := rfl
  rcases authenticate_shape env (setOpened c) with h | h
  · left; rw [hs, h]; rfl
  · right; rw [hs, h]; rfl

theorem step_connOpen_good (env : Env) (totp_now : String → String) (c : Client)
    (hg : goodCreds env) :
    step env totp_now c Event.connOpen
      = pushFrame (setOpened c) "authenticateuser" (authPayload env) := by
  have ha : authenticate env (setOpened c)
      = Except.ok (pushFrame (setOpened c) "authenticateuser" (authPayload env)) := by
    unfold authenticate
    rw [hg.1, hg.2]
    rfl
  show orKeep (setOpened c) (authenticate env (setOpened c)) = _
  rw [ha]
  rfl

theorem allFrames_pushFrame (c : Client) (name : String) (p : Json) :
    allFrames (pushFrame c name p) = allFrames c ++ [mkFrame c.seq name p] := by
  simp [allFrames, connLists, pushFrame, send_request, List.flatten_append]

theorem allFrames_setOpened (c : Client) : allFrames (setOpened c) = allFrames c := rfl

theorem allFrames_connClose (env : Env) (totp_now : String → String) (c : Client) :
    allFrames (step env totp_now c Event.connClose) = allFrames c := by
  simp [allFrames, connLists, step, List.flatten_append]

/-- The invariant behind claim C2: the frames ever sent carry strictly
increasing sequence ids, all below the stored counter. -/
def SeqOK (c : Client) : Prop :=
  List.Pairwise (fun f g => f.i < g.i) (allFrames c) ∧ ∀ f ∈ allFrames c, f.i < c.seq

theorem seqOK_pushFrame (c : Client) (name : String) (p : Json) (h : SeqOK c) :
    SeqOK (pushFrame c name p) := by
  obtain ⟨hp, hb⟩ := h
  constructor
  · rw [allFrames_pushFrame]
    apply List.pairwise_append.mpr
    refine ⟨hp, List.pairwise_singleton _ _, ?_⟩
    intro a ha b hbmem
    rw [List.mem_singleton] at hbmem
    subst hbmem
    exact hb a ha
  · intro f hf
    rw [allFrames_pushFrame] at hf
    rw [pushFrame_seq]
    rcases List.mem_append.mp hf with h1 | h2
    · have := hb f h1; omega
    · rw [List.mem_singleton] at h2
      subst h2
      show c.seq < c.seq + 2
      omega

theorem seqOK_step (env : Env) (totp_now : String → String) (c : Client) (e : Event)
    (h : SeqOK c) : SeqOK (step env totp_now c e) := by
  cases he : callName e with
  | some name =>
    rcases step_call_shape env totp_now c e name he with h1 | ⟨-, -, p, h1⟩ <;> rw [h1]
    · exact h
    · exact seqOK_pushFrame c name p h
  | none =>
    cases e with
    | connOpen =>
      rcases step_connOpen_shape env totp_now c with h1 | h1 <;> rw [h1]
      · exact h
      · exact seqOK_pushFrame (setOpened c) _ _ h
    | connClose =>
      obtain ⟨hp, hb⟩ := h
      constructor
      · rw [allFrames_connClose]; exact hp
      · intro f hf
        rw [allFrames_connClose] at hf
        exact hb f hf
    | callAuthenticate2fa => simp [callName] at he
    | callGetAccountPositions => simp [callName] at he
    | callSubscribeLevel1 iid sym => simp [callName] at he
    | callGetProducts => simp [callName] at he
    | callLogout => simp [callName] at he
    | callGetAccountInfo => simp [callName] at he
    | callSendOrder iid side otype qty tif udq price => simp [callName] at he

theorem seqOK_run (env : Env) (totp_now : String → String) (trace : List Event) :
    ∀ c : Client, SeqOK c → SeqOK (run env totp_now c trace) := by
  induction trace with
  | nil => intro c h; exact h
  | cons e es ih => intro c h; exact ih _ (seqOK_step env totp_now c e h)

theorem seqOK_init : SeqOK initClient := by
  constructor
  · show List.Pairwise _ []
    exact List.Pairwise.nil
  · intro f hf
    simp [allFrames, connLists, initClient] at hf

theorem step_opened_call (env : Env) (totp_now : String → String) (c : Client)
    (e : Event) (name : String) (hname : callName e = some name) :
    (step env totp_now c e).conn.opened = c.conn.opened := by
  rcases step_call_shape env totp_now c e name hname with h1 | ⟨-, -, p, h1⟩ <;> rw [h1]
  rfl

theorem step_opened_connOpen (env : Env) (totp_now : String → String) (c : Client) :
    (step env totp_now c Event.connOpen).conn.opened = true := by
  rcases step_connOpen_shape env totp_now c with h1 | h1 <;> rw [h1] <;> rfl

/-- No frame of the list is an `authenticateuser` frame. -/
def noAuthIn (fs : List Frame) : Prop := ∀ f ∈ fs, f.n ≠ "authenticateuser"

/-- A finished connection's frame list is either empty (the socket never
opened) or starts with the credentials frame and never repeats it. -/
def connOK (env : Env) (fs : List Frame) : Prop :=
  fs = [] ∨ ∃ i rest, fs = mkFrame i "authenticateuser" (authPayload env) :: rest ∧ noAuthIn rest

/-- The invariant behind claim C6. -/
def AuthInv (env : Env) (c : Client) : Prop :=
  (c.conn.opened = false → c.conn.frames = []) ∧
  (c.conn.opened = true →
    ∃ i rest, c.conn.frames = mkFrame i "authenticateuser" (authPayload env) :: rest ∧
      noAuthIn rest) ∧
  ∀ fs ∈ c.past, connOK env fs

theorem authInv_step (env : Env) (totp_now : String → String) (c : Client) (e : Event)
    (hg : goodCreds env) (hopen : e = Event.connOpen → c.conn.opened = false)
    (h : AuthInv env c) : AuthInv env (step env totp_now c e) := by
  obtain ⟨h1, h2, h3⟩ := h
  cases he : callName e with
  | some name =>
    rcases step_call_shape env totp_now c e name he with hst | ⟨hop, hname, p, hst⟩ <;> rw [hst]
    · exact ⟨h1, h2, h3⟩
    · refine ⟨?_, ?_, ?_⟩
      · intro hco
        rw [pushFrame_opened, hop] at hco
        exact absurd hco (by decide)
      · intro _
        obtain ⟨i, rest, hfr, hna⟩ := h2 hop
        refine ⟨i, rest ++ [mkFrame c.seq name p], ?_, ?_⟩
        · rw [pushFrame_frames, hfr]
          rfl
        · intro f hf
          rcases List.mem_append.mp hf with hf1 | hf2
          · exact hna f hf1
          · rw [List.mem_singleton] at hf2
            subst hf2
            exact hname
      · rw [pushFrame_past]
        exact h3
  | none =>
    cases e with
    | connOpen =>
      have hfr : c.conn.frames = [] := h1 (hopen rfl)
      rw [step_connOpen_good env totp_now c hg]
      refine ⟨?_, ?_, ?_⟩
      · intro hco
        rw [pushFrame_opened, show (setOpened c).conn.opened = true from rfl] at hco
        exact absurd hco (by decide)
      · intro _
        refine ⟨c.seq, [], ?_, ?_⟩
        · rw [pushFrame_frames]
          show c.conn.frames ++ [mkFrame c.seq _ _] = _
          rw [hfr]
          rfl
        · intro f hf
          exact absurd hf (List.not_mem_nil f)
      · rw [pushFrame_past]
        exact h3
    | connClose =>
      refine ⟨fun _ => rfl, ?_, ?_⟩
      · intro hco
        rw [show (step env totp_now c Event.connClose).conn.opened = false from rfl] at hco
        exact absurd hco (by decide)
      · intro fs hfs
        rcases List.mem_append.mp hfs with hin | hin
        · exact h3 fs hin
        · rw [List.mem_singleton] at hin
          subst hin
          cases hop : c.conn.opened with
          | false => left; exact h1 hop
          | true => right; exact h2 hop
    | callAuthenticate2fa => simp [callName] at he
    | callGetAccountPositions => simp [callName] at he
    | callSubscribeLevel1 iid sym => simp [callName] at he
    | callGetProducts => simp [callName] at he
    | callLogout => simp [callName] at he
    | callGetAccountInfo => simp [callName] at he
    | callSendOrder iid side otype qty tif udq price => simp [callName] at he

theorem authInv_run (env : Env) (totp_now : String → String) (hg : goodCreds env) :
    ∀ (trace : List Event) (c : Client), wfEvents c.conn.opened trace = true →
      AuthInv env c → AuthInv env (run env totp_now c trace) := by
  intro trace
  induction trace with
  | nil => intro c _ h; exact h
  | cons e es ih =>
    intro c hwf h
    cases he : callName e with
    | some name =>
      have hwf' : wfEvents c.conn.opened es = true := by
        cases e <;> simp_all [callName, wfEvents]
      have h' := authInv_step env totp_now c e hg
        (fun hco => by subst hco; simp [callName] at he) h
      apply ih _ ?_ h'
      rw [step_opened_call env totp_now c e name he]
      exact hwf'
    | none =>
      cases e with
      | connOpen =>
        have hwf' : (!c.conn.opened && wfEvents true es) = true := hwf
        rw [Bool.and_eq_true, Bool.not_eq_true'] at hwf'
        have h' := authInv_step env totp_now c Event.connOpen hg (fun _ => hwf'.1) h
        apply ih _ ?_ h'
        rw [step_opened_connOpen]
        exact hwf'.2
      | connClose =>
        have hwf' : wfEvents false es = true := hwf
        have h' := authInv_step env totp_now c Event.connClose hg
          (fun hco => Event.noConfusion hco) h
        apply ih _ ?_ h'
        exact hwf'
      | callAuthenticate2fa => simp [callName] at he
      | callGetAccountPositions => simp [callName] at he
      | callSubscribeLevel1 iid sym => simp [callName] at he
      | callGetProducts => simp [callName] at he
      | callLogout => simp [callName] at he
      | callGetAccountInfo => simp [callName] at he
      | callSendOrder iid side otype qty tif udq price => simp [callName] at he

theorem authInv_init (env : Env) : AuthInv env initClient := by
  refine ⟨fun _ => rfl, ?_, ?_⟩
  · intro hco
    exact absurd hco (by decide)
  · intro fs hfs
    exact absurd hfs (List.not_mem_nil fs)

theorem runSends_counter (reqs : List (String × Json)) :
    ∀ s : Nat, (runSends s reqs).1 = s + 2 * reqs.length := by
  induction reqs with
  | nil => intro s; simp [runSends]
  | cons hd tl ih =>
    intro s
    obtain ⟨n, p⟩ := hd
    simp only [runSends, send_request, List.length_cons]
    rw [ih (s + 2)]
    ring

theorem runSends_frame (reqs : List (String × Json)) :
    ∀ (s k : Nat), k < reqs.length →
      (((runSends s reqs).2)[k]?).map Frame.i = some (s + 2 * k) := by
  induction reqs with
  | nil => intro s k h; simp at h
  | cons hd tl ih =>
    intro s k h
    obtain ⟨n, p⟩ := hd
    cases k with
    | zero => simp [runSends, send_request, mkFrame]
    | succ k' =>
      have hk : k' < tl.length := by simpa using h
      have := ih (s + 2) k' hk
      simp only [runSends, send_request, List.getElem?_cons_succ]
      rw [this]
      congr 1
      ring

/-- C1: the counter starts at the fixed base 2 and moves up by 2 per request:
the k-th successful `_send_request` invocation since construction (counting
from 0) sends a frame whose `i` field is `2 + 2 * k`, and the stored counter
right after it is `2 + 2 * (k + 1)`. -/
theorem send_request_sequence_numbers :
    ∀ (reqs : List (String × Json)) (k : Nat), k < reqs.length →
      (((runSends 2 reqs).2)[k]?).map Frame.i = some (2 + 2 * k) ∧
      (runSends 2 (reqs.take (k + 1))).1 = 2 + 2 * (k + 1) := by
  intro reqs k h
  constructor
  · exact runSends_frame reqs 2 k h
  · rw [runSends_counter, List.length_take, Nat.min_eq_left (by omega)]

def reqsW : List (String × Json) := [("GetProducts", Json.obj [("OMSId", Json.num 1)])]

theorem send_request_sequence_numbers_witness :
    0 < reqsW.length ∧
    ((((runSends 2 reqsW).2)[0]?).map Frame.i = some (2 + 2 * 0) ∧
      (runSends 2 (reqsW.take (0 + 1))).1 = 2 + 2 * (0 + 1)) :=
  ⟨by decide, send_request_sequence_numbers reqsW 0 (by decide)⟩

/-- C2: sequence ids are strictly increasing over every frame the instance
ever sends, across reconnects, and the `on_close` reconnect path leaves
`request_sequence_number` unchanged. -/
theorem sequence_ids_strictly_increasing :
    ∀ (env : Env) (totp_now : String → String) (trace : List Event),
      List.Pairwise (fun f g => f.i < g.i) (allFrames (run env totp_now initClient trace)) ∧
      ∀ c : Client, (step env totp_now c Event.connClose).seq = c.seq := by
  intro env totp_now trace
  exact ⟨(seqOK_run env totp_now trace initClient seqOK_init).1, fun c => rfl⟩

/-- C3: the wire frame is the JSON serialization of the envelope
`(m: 0, i: sequenceId, n: methodName, o: serializedBody)`, with `o` the JSON
string serialization of the payload and `m` the request type code 0; this is
exactly the spec-side `encodeSpec`. -/
theorem frame_encoding_matches_spec :
    ∀ (method_name : String) (payload : Json) (seq : Nat),
      wireOf (send_request seq method_name payload).1 = encodeSpec method_name payload seq ∧
      frameJson (send_request seq method_name payload).1 =
        Json.obj [("m", Json.num 0), ("i", Json.num (seq : Int)),
                  ("n", Json.str method_name), ("o", Json.str (dumps payload))] := by
  intro method_name payload seq
  exact ⟨rfl, rfl⟩

/-- C4 counterexample: the incoming frame `("m": 3)` lacks both `"n"` and
`"i"`, yet `on_message` accepts it (method name `None`, payload defaulted to
the empty object) instead of rejecting it as malformed. -/
theorem on_message_missing_fields_accepted :
    on_message "\x7b\"m\": 3\x7d" = Except.ok (Json.null, Json.obj []) := rfl

/-- C4 amended: `on_message` fails only when the outer JSON is invalid or the
(defaulted) inner `"o"` string is; frames lacking `"n"` or `"i"` are not
rejected (a missing `"n"` just yields `None`), and a parse failure of the
inner `"o"` raises the decode error out of the message handler instead of
scoping it to the frame. -/
theorem on_message_error_behavior :
    ∀ s : String,
      (∀ e, loads s = Except.error e → on_message s = Except.error e) ∧
      (∀ fields, loads s = Except.ok (Json.obj fields) → jLookup fields "o" = none →
        on_message s = Except.ok ((jLookup fields "n").getD Json.null, Json.obj [])) ∧
      (∀ fields t e, loads s = Except.ok (Json.obj fields) →
        jLookup fields "o" = some (Json.str t) → loads t = Except.error e →
        on_message s = Except.error e) := by
  intro s
  refine ⟨?_, ?_, ?_⟩
  · intro e h
    unfold on_message
    rw [h]
  · intro fields h ho
    unfold on_message
    rw [h]
    simp only [dictGet, dictGetD, ho, Option.getD_none, Option.getD_some]
    rw [show loads "\x7b\x7d" = Except.ok (Json.obj []) from rfl]
  · intro fields t e h ho hl
    unfold on_message
    rw [h]
    simp only [dictGet, dictGetD, ho, Option.getD_none, Option.getD_some]
    rw [hl]

theorem on_message_error_behavior_witness :
    loads "\x7b\"n\": \"x\", \"o\": \"nope\"\x7d"
        = Except.ok (Json.obj [("n", Json.str "x"), ("o", Json.str "nope")]) ∧
    jLookup [("n", Json.str "x"), ("o", Json.str "nope")] "o" = some (Json.str "nope") ∧
    loads "nope" = Except.error PyErr.jsonDecodeError ∧
    on_message "\x7b\"n\": \"x\", \"o\": \"nope\"\x7d" = Except.error PyErr.jsonDecodeError :=
  ⟨rfl, rfl, rfl,
    (on_message_error_behavior "\x7b\"n\": \"x\", \"o\": \"nope\"\x7d").2.2
      [("n", Json.str "x"), ("o", Json.str "nope")] "nope" PyErr.jsonDecodeError rfl rfl rfl⟩

/-- C9: on an outer envelope that parses to an object lacking `"o"`,
`on_message` substitutes the default string of an empty object and succeeds;
and it succeeds on any well-formed outer object whose `"o"`, when present,
is a string of valid JSON. -/
theorem on_message_missing_o_defaults :
    ∀ (s : String) (fields : List (String × Json)),
      loads s = Except.ok (Json.obj fields) →
      (jLookup fields "o" = none →
        on_message s = Except.ok ((jLookup fields "n").getD Json.null, Json.obj [])) ∧
      (∀ t p, jLookup fields "o" = some (Json.str t) → loads t = Except.ok p →
        on_message s = Except.ok ((jLookup fields "n").getD Json.null, p)) := by
  intro s fields h
  constructor
  · intro ho
    unfold on_message
    rw [h]
    simp only [dictGet, dictGetD, ho, Option.getD_none, Option.getD_some]
    rw [show loads "\x7b\x7d" = Except.ok (Json.obj []) from rfl]
  · intro t p ho hp
    unfold on_message
    rw [h]
    simp only [dictGet, dictGetD, ho, Option.getD_none, Option.getD_some]
    rw [hp]

theorem on_message_missing_o_defaults_witness :
    loads "\x7b\"n\": \"Ping\", \"i\": 4\x7d"
        = Except.ok (Json.obj [("n", Json.str "Ping"), ("i", Json.num 4)]) ∧
    jLookup [("n", Json.str "Ping"), ("i", Json.num 4)] "o" = none ∧
    on_message "\x7b\"n\": \"Ping\", \"i\": 4\x7d" = Except.ok (Json.str "Ping", Json.obj []) :=
  ⟨rfl, rfl,
    (on_message_missing_o_defaults "\x7b\"n\": \"Ping\", \"i\": 4\x7d"
      [("n", Json.str "Ping"), ("i", Json.num 4)] rfl).1 rfl⟩


def envAbc : Env := fun k => if k = "ACCOUNT_ID" then some "abc" else none

def openedClient : Client :=
  { seq := 2, conn := { opened := true, frames := [] }, past := [] }

/-- C5 counterexample: with `ACCOUNT_ID` set to the non-empty string "abc",
`get_account_positions` still raises (the `ValueError` of `int("abc")`),
refuting "raises iff the setting is unset or empty". -/
theorem get_account_positions_raises_on_nonnumeric :
    envAbc "ACCOUNT_ID" = some "abc" ∧ "abc" ≠ "" ∧
    get_account_positions envAbc openedClient = Except.error PyErr.valueError :=
  ⟨rfl, by decide, rfl⟩

/-- C5 amended: on an open connection, `authenticate` raises iff `USERNAME`
or `PASSWORD` is unset or empty, `authenticate_2fa` raises iff
`2FA_SECRET_KEY` is unset or empty, and `get_account_positions` raises iff
`ACCOUNT_ID` is unset, empty, or — additionally — not parseable as an
integer; each failure happens before `_send_request`, so no frame is sent. -/
theorem config_validation_characterization :
    ∀ (env : Env) (totp_now : String → String) (c : Client), c.conn.opened = true →
      (isOkE (authenticate env c) = false ↔
        (pyTruthyOptStr (env "USERNAME") = false ∨ pyTruthyOptStr (env "PASSWORD") = false)) ∧
      (isOkE (authenticate_2fa totp_now env c) = false ↔
        pyTruthyOptStr (env "2FA_SECRET_KEY") = false) ∧
      (isOkE (get_account_positions env c) = false ↔
        (pyTruthyOptStr (env "ACCOUNT_ID") = false ∨
          isOkE (pyIntOfEnv (env "ACCOUNT_ID")) = false)) := by
  intro env totp_now c hop
  refine ⟨?_, ?_, ?_⟩
  · unfold authenticate
    cases hu : pyTruthyOptStr (env "USERNAME") <;>
      cases hp : pyTruthyOptStr (env "PASSWORD") <;>
        simp [hu, hp, sendOnClient, hop, isOkE]
  · unfold authenticate_2fa
    cases hs : pyTruthyOptStr (env "2FA_SECRET_KEY") <;>
      simp [hs, sendOnClient, hop, isOkE]
  · unfold get_account_positions
    cases ha : pyTruthyOptStr (env "ACCOUNT_ID")
    · simp [ha, isOkE]
    · cases hi : pyIntOfEnv (env "ACCOUNT_ID") with
      | error e => simp [ha, hi, isOkE]
      | ok aid => simp [ha, hi, sendOnClient, hop, isOkE]

def envGood : Env := fun k =>
  if k = "USERNAME" then some "alice"
  else if k = "PASSWORD" then some "pw"
  else if k = "2FA_SECRET_KEY" then some "sk"
  else if k = "ACCOUNT_ID" then some "7"
  else none

theorem config_validation_characterization_witness :
    openedClient.conn.opened = true ∧
    (isOkE (authenticate envGood openedClient) = false ↔
      (pyTruthyOptStr (envGood "USERNAME") = false ∨
        pyTruthyOptStr (envGood "PASSWORD") = false)) :=
  ⟨rfl, (config_validation_characterization envGood (fun _ => "000000") openedClient rfl).1⟩

/-- C7: when `price` is `None`, the `sendorder` payload carries
`LimitPrice: 0` regardless of `order_type`; when it is given, `LimitPrice`
is the given price; and a successful call sends exactly that payload. -/
theorem sendorder_limitprice_default :
    ∀ (env : Env) (c : Client) (aid : Int)
      (instrument_id side order_type quantity timeinforce : Json)
      (usedisplayquantity : Bool) (price : Option Json),
      pyIntOfEnv (env "ACCOUNT_ID") = Except.ok aid → aid ≠ 0 → c.conn.opened = true →
      sendorder env c instrument_id side order_type quantity timeinforce usedisplayquantity price
          = Except.ok (pushFrame c "SendOrder"
              (sendorderPayload aid instrument_id side order_type quantity timeinforce
                usedisplayquantity price)) ∧
      jLookup (sendorderFields aid instrument_id side order_type quantity timeinforce
          usedisplayquantity price) "LimitPrice" = some (price.getD (Json.num 0)) := by
  intro env c aid iid side otype qty tif udq price hi ha hop
  constructor
  · unfold sendorder
    simp only [hi]
    have hlook : payloadItem (sendorderPayload aid iid side otype qty tif udq price) "AccountId"
        = Json.num aid := rfl
    rw [hlook]
    have htr : pyTruthy (Json.num aid) = true := by
      simp [pyTruthy]
      exact ha
    rw [htr]
    simp [sendOnClient, hop]
  · rfl

theorem sendorder_limitprice_default_witness :
    pyIntOfEnv (envGood "ACCOUNT_ID") = Except.ok 7 ∧ (7 : Int) ≠ 0 ∧
    openedClient.conn.opened = true ∧
    jLookup (sendorderFields 7 (Json.num 5) (Json.num 0) (Json.num 2) (Json.num 1)
        (Json.num 1) false none) "LimitPrice" = some ((none : Option Json).getD (Json.num 0)) :=
  ⟨rfl, by decide, rfl,
    (sendorder_limitprice_default envGood openedClient 7 (Json.num 5) (Json.num 0) (Json.num 2)
      (Json.num 1) (Json.num 1) false none rfl (by decide) rfl).2⟩

/-- C10: in every account-id-requiring method of the validating variant,
`int(os.environ.get("ACCOUNT_ID"))` is evaluated while the payload is built,
before the guard; with `ACCOUNT_ID` unset each call therefore raises
`TypeError` from `int(None)` — never the guard's `ValueError` — and sends
nothing. -/
theorem account_id_unset_raises_typeerror :
    ∀ (env : Env) (c : Client), env "ACCOUNT_ID" = none →
      getaccountinfo env c = Except.error PyErr.typeError ∧
      getopentradereports env c = Except.error PyErr.typeError ∧
      gettickerhistory env c = Except.error PyErr.typeError ∧
      cancellallorders env c = Except.error PyErr.typeError ∧
      (∀ order_id, cancelorder env c order_id = Except.error PyErr.typeError) ∧
      getopenorders env c = Except.error PyErr.typeError ∧
      (∀ (instrument_id side order_type quantity timeinforce : Json)
          (usedisplayquantity : Bool) (price : Option Json),
        sendorder env c instrument_id side order_type quantity timeinforce
          usedisplayquantity price = Except.error PyErr.typeError) ∧
      subscribeaccountevents env c = Except.error PyErr.typeError := by
  intro env c h
  have hi : pyIntOfEnv (env "ACCOUNT_ID") = Except.error PyErr.typeError := by
    rw [h]
    rfl
  refine ⟨?_, ?_, ?_, ?_, ?_, ?_, ?_, ?_⟩
  · unfold getaccountinfo; simp only [hi]
  · unfold getopentradereports; simp only [hi]
  · unfold gettickerhistory; simp only [hi]
  · unfold cancellallorders; simp only [hi]
  · intro order_id; unfold cancelorder; simp only [hi]
  · unfold getopenorders; simp only [hi]
  · intro iid side otype qty tif udq price; unfold sendorder; simp only [hi]
  · unfold subscribeaccountevents; simp only [hi]

def envEmpty : Env := fun _ => none

theorem account_id_unset_raises_typeerror_witness :
    envEmpty "ACCOUNT_ID" = none ∧
    getaccountinfo envEmpty openedClient = Except.error PyErr.typeError :=
  ⟨rfl, (account_id_unset_raises_typeerror envEmpty openedClient rfl).1⟩

/-- C6: with credentials configured, every connection-opened event makes the
client send the credentials frame first on that connection: on any
deliverable trace, every non-empty per-connection frame list starts with the
single `authenticateuser` frame carrying `UserName` and `Password`, and no
later frame of that connection repeats it. -/
theorem on_open_authenticates_first :
    ∀ (env : Env) (totp_now : String → String) (trace : List Event),
      goodCreds env → wfEvents false trace = true →
      ∀ fs ∈ connLists (run env totp_now initClient trace), fs ≠ [] →
        ∃ i rest, fs = mkFrame i "authenticateuser" (authPayload env) :: rest ∧
          ∀ f ∈ rest, f.n ≠ "authenticateuser" := by
  intro env totp_now trace hg hwf fs hfs hne
  have h := authInv_run env totp_now hg trace initClient hwf (authInv_init env)
  obtain ⟨h1, h2, h3⟩ := h
  rcases List.mem_append.mp hfs with hin | hin
  · rcases h3 fs hin with hemp | hok
    · exact absurd hemp hne
    · exact hok
  · rw [List.mem_singleton] at hin
    subst hin
    cases hop : (run env totp_now initClient trace).conn.opened with
    | false => exact absurd (h1 hop) hne
    | true => exact h2 hop

def totpConst : String → String := fun _ => "123456"

def traceW : List Event := [Event.connOpen, Event.callGetProducts]

theorem on_open_authenticates_first_witness :
    goodCreds envGood ∧ wfEvents false traceW = true ∧
    (run envGood totpConst initClient traceW).conn.frames
        ∈ connLists (run envGood totpConst initClient traceW) ∧
    (run envGood totpConst initClient traceW).conn.frames ≠ [] ∧
    ∃ i rest, (run envGood totpConst initClient traceW).conn.frames
        = mkFrame i "authenticateuser" (authPayload envGood) :: rest ∧
      ∀ f ∈ rest, f.n ≠ "authenticateuser" :=
  ⟨⟨by decide, by decide⟩, rfl,
    List.mem_append_right _ (List.mem_singleton.mpr rfl),
    by decide,
    on_open_authenticates_first envGood totpConst traceW ⟨by decide, by decide⟩ rfl
      (run envGood totpConst initClient traceW).conn.frames
      (List.mem_append_right _ (List.mem_singleton.mpr rfl)) (by decide)⟩

def dupTrace : List Event :=
  [Event.connOpen,
   Event.callSubscribeLevel1 (some (Json.num 1)) (some (Json.str "BTCUSDT")),
   Event.callSubscribeLevel1 (some (Json.num 1)) (some (Json.str "BTCUSDT"))]

/-- C8 counterexample: two successive identical `subscribe_level1` calls on
the same connection both send; after the trace the connection carries the
auth frame and two `SubscribeLevel1` frames (ids 4 and 6).  The second call
neither fails with a duplicate-subscription error nor is suppressed. -/
theorem duplicate_subscribe_sends_two_frames :
    (run envGood totpConst initClient dupTrace).conn.frames =
      [mkFrame 2 "authenticateuser" (authPayload envGood),
       mkFrame 4 "SubscribeLevel1" (sub1Payload (some (Json.num 1)) (some (Json.str "BTCUSDT"))),
       mkFrame 6 "SubscribeLevel1" (sub1Payload (some (Json.num 1)) (some (Json.str "BTCUSDT")))]
    := by decide

/-- C8 amended: `subscribe_level1` keeps no subscription registry and never
fails with a duplicate-subscription error: on an open connection every call
sends a subscribe frame, so two successive calls with the same instrument
and symbol send two `SubscribeLevel1` frames, distinguished only by their
sequence ids. -/
theorem subscribe_level1_no_duplicate_detection :
    ∀ (c : Client) (instrument_id symbol : Option Json), c.conn.opened = true →
      subscribe_level1 c instrument_id symbol
          = Except.ok (pushFrame c "SubscribeLevel1" (sub1Payload instrument_id symbol)) ∧
      subscribe_level1 (pushFrame c "SubscribeLevel1" (sub1Payload instrument_id symbol))
          instrument_id symbol
          = Except.ok (pushFrame (pushFrame c "SubscribeLevel1" (sub1Payload instrument_id symbol))
              "SubscribeLevel1" (sub1Payload instrument_id symbol)) ∧
      (mkFrame c.seq "SubscribeLevel1" (sub1Payload instrument_id symbol)).i ≠
        (mkFrame (c.seq + 2) "SubscribeLevel1" (sub1Payload instrument_id symbol)).i := by
  intro c iid sym hop
  refine ⟨?_, ?_, ?_⟩
  · simp [subscribe_level1, sendOnClient, hop]
  · simp [subscribe_level1, sendOnClient, pushFrame_opened, hop]
  · show c.seq ≠ c.seq + 2
    omega

theorem subscribe_level1_no_duplicate_detection_witness :
    openedClient.conn.opened = true ∧
    subscribe_level1 openedClient none none
      = Except.ok (pushFrame openedClient "SubscribeLevel1" (sub1Payload none none)) :=
  ⟨rfl, (subscribe_level1_no_duplicate_detection openedClient none none rfl).1⟩
